import Mathlib

/-!
Verification of the lsmysql driver (src/lsmysql/mysql.go) of the libschema
repository.  The Go functions are shallowly embedded as pure Lean functions:
database effects (transactions, statement execution) are recorded in an
explicit trace of operations, and the outcome of each driver call (success or
a driver error) is supplied by an environment record, so that every control
path of the Go code corresponds to a choice of environment.

Error values follow github.com/pkg/errors: an error is either a base message
(errors.New / errors.Errorf) or a wrap of a cause with a message
(errors.Wrap / errors.Wrapf); Error() renders "msg: cause".  Single-quote
characters that the Go format strings place around interpolated values are
omitted from the message literals; no claim depends on that punctuation.
The textual rendering of libschema.MigrationName (defined outside the
provided sources) is modelled as "library: name"; no claim depends on it.
-/

set_option autoImplicit false

namespace Lsmysql

/-- Error values in the style of github.com/pkg/errors. -/
inductive GoErr where
  | base (msg : String)
  | wrap (msg : String) (cause : GoErr)
  deriving DecidableEq, Repr

/-- `Error()` of a pkg/errors value: a wrap renders as "msg: cause". -/
def GoErr.message : GoErr → String
  | .base m => m
  | .wrap m c => m ++ ": " ++ c.message

/-- errors.Wrap / errors.Wrapf on a possibly-nil error: wrapping nil yields nil. -/
def wrapOpt (e : Option GoErr) (msg : String) : Option GoErr :=
  e.map (GoErr.wrap msg)

/-- First character accepted by simpleIdentifierRE: `[A-Za-z]`. -/
def isIdentStart (c : Char) : Bool := c.isUpper || c.isLower

/-- Later characters accepted by simpleIdentifierRE: `[A-Za-z0-9_]`. -/
def isIdentChar (c : Char) : Bool := isIdentStart c || c.isDigit || c == '_'

/-- simpleIdentifierRE (mysql.go:249): `\A[A-Za-z][A-Za-z0-9_]*\z`. -/
def simpleIdentifier (s : String) : Bool :=
  match s.data with
  | [] => false
  | c :: cs => isIdentStart c && cs.all isIdentChar

/-- Go strings.Split(s, ".") on the character list: splits at every dot,
    yielding [""] on the empty string, like the Go function. -/
def splitDots : List Char → List (List Char)
  | [] => [[]]
  | c :: cs =>
    let r := splitDots cs
    if c == '.' then [] :: r
    else
      match r with
      | [] => [[c]]
      | w :: ws => (c :: w) :: ws

/-- strings.Split(tableName, ".") as used by trackingSchemaTable. -/
def splitOnDot (s : String) : List String :=
  (splitDots s.data).map (fun cs => String.mk cs)

/-- trackingSchemaTable (mysql.go:262-284): parse Options.TrackingTable into
    (schema, qualified table name) or a configuration error. -/
def trackingSchemaTable (tableName : String) : Except GoErr (String × String) :=
  match splitOnDot tableName with
  | [schema, table] =>
    if simpleIdentifier schema = false then
      .error (.base ("Tracking table schema name must be a simple identifier, not " ++ schema))
    else if simpleIdentifier table = false then
      .error (.base ("Tracking table table name must be a simple identifier, not " ++ table))
    else
      .ok (schema, schema ++ "." ++ table)
  | [t] =>
    if simpleIdentifier t = false then
      .error (.base ("Tracking table table name must be a simple identifier, not " ++ t))
    else
      .ok ("", t)
  | _ => .error (.base ("Tracking table " ++ tableName ++ " is not valid"))

/-- trackingTable (mysql.go:288-291): the table reference, discarding any
    configuration error (the error is ignored with `_`). -/
def trackingTable (tableName : String) : String :=
  match trackingSchemaTable tableName with
  | .ok (_, table) => table
  | .error _ => ""

/-- Modelled from the spec: the result type of CheckScript (the script
    classifier is defined in a repository source file that is not under src/);
    the constructors are those matched by the switch in DoOneMigration
    (mysql.go:181-189). -/
inductive CheckType where
  | safe
  | dataAndDDL
  | nonIdempotentDDL
  deriving DecidableEq, Repr

/-- The action variant of an mmigration (mysql.go:81-85): a script migration
    carries the SQL text produced by its generator together with the
    classification CheckScript assigns to that text (the classifier itself is
    outside the provided sources, so its result is carried as data). -/
inductive MAction where
  | script (text : String) (check : CheckType)
  | computed
  deriving DecidableEq, Repr

/-- An mmigration together with the MigrationBase fields DoOneMigration
    reads: the (library, name) key and HasSkipIf().  HasSkipIf is defined in
    the libschema core outside the provided sources; modelled from the spec
    as a flag saying whether a skip-if condition was declared. -/
structure Migration where
  library : String
  name : String
  action : MAction
  hasSkipIf : Bool
  deriving DecidableEq, Repr

/-- Rendering of libschema.MigrationName (outside the provided sources). -/
def Migration.render (m : Migration) : String := m.library ++ ": " ++ m.name

/-- libschema.MigrationStatus as used by this driver (only Done is read and
    written here). -/
structure MigrationStatus where
  done : Bool
  deriving DecidableEq, Repr

/-- The database options DoOneMigration reads from d.Options. -/
structure DBOptions where
  schemaOverride : String
  trackingTable : String
  deriving DecidableEq, Repr

/-- Outcomes of the driver calls DoOneMigration can make; `none` means the
    call succeeds, `some e` that it fails with error `e`. -/
structure Env where
  beginTx1 : Option GoErr
  useExec : Option GoErr
  execResult : Option GoErr
  computedResult : Option GoErr
  beginTx2 : Option GoErr
  saveExec : Option GoErr
  commitResult : Option GoErr
  deriving DecidableEq, Repr

/-- One database operation issued by the driver.  Transaction ids number the
    successful BeginTx calls of one invocation in order (1, then 2). -/
inductive DBOp where
  | beginTxOk (id : Nat)
  | beginTxFail
  | execUse (id : Nat) (schema : String)
  | execScript (id : Nat) (text : String)
  | runComputed (id : Nat)
  | execReplace (id : Nat) (table : String) (library : String) (mname : String)
      (done : Bool) (errText : String)
  | rollback (id : Nat)
  | commitTx (id : Nat)
  | execGetLock (id : Nat) (lockStr : String)
  | execReleaseLock (id : Nat) (lockStr : String)
  | execCreateSchema (schema : String)
  | execCreateTable (table : String)
  deriving DecidableEq, Repr

/-- A tracking-table row as written by saveStatus. -/
structure TrackRow where
  library : String
  mname : String
  done : Bool
  errText : String
  deriving DecidableEq, Repr

/-- Result of one DoOneMigration invocation: the returned error, the trace of
    database operations issued, the tracking rows committed durably (writes
    survive only if their transaction commits), and the in-memory status set
    by the deferred SetStatus handler (`none` = left untouched). -/
structure RunOutcome where
  err : Option GoErr
  trace : List DBOp
  committed : List TrackRow
  statusSet : Option MigrationStatus
  deriving DecidableEq, Repr

def mixedMsg : String :=
  "Migration combines DDL (Data Definition Language [schema changes]) and data manipulation"

def nonIdemMsg : String :=
  "Unconditional migration has non-idempotent DDL (Data Definition Language [schema changes])"

def beginTxMsg (m : Migration) : String := "Begin Tx for migration " ++ m.render

def overrideMsg (s : String) : String :=
  "Options.SchemaOverride must be a simple identifier, not " ++ s

def useMsg (s : String) (m : Migration) : String :=
  "Set search path to " ++ s ++ " for " ++ m.render

def problemMsg (m : Migration) : String := "Problem with migration " ++ m.render

def saveTxFailMsg (m : Migration) (txerr : GoErr) : String :=
  "Tx for saving status for " ++ m.render ++ " also failed with " ++ txerr.message

def saveStatusMsg (m : Migration) : String := "Save status for " ++ m.render

def saveAlsoFailedMsg (m : Migration) (txerr : GoErr) : String :=
  "Save status for " ++ m.render ++ " also failed: " ++ txerr.message

def commitMsg (m : Migration) : String := "Commit migration " ++ m.render

/-- estr in saveStatus (mysql.go:294-297). -/
def errText : Option GoErr → String
  | some e => e.message
  | none => ""

/-- The policy switch on CheckScript(script) (mysql.go:181-189). -/
def policyError (check : CheckType) (hasSkipIf : Bool) : Option GoErr :=
  match check with
  | .safe => none
  | .dataAndDDL => some (.base mixedMsg)
  | .nonIdempotentDDL => if hasSkipIf then none else some (.base nonIdemMsg)

/-- saveStatus (mysql.go:293-311) in transaction `txid`, followed by the two
    deferred handlers of DoOneMigration (mysql.go:151-168): the commit/rollback
    handler acting on the current transaction variable, then the SetStatus
    handler.  `e1` is the value of `err` when saveStatus is called. -/
def savePhase (env : Env) (o : DBOptions) (m : Migration) (tr : List DBOp)
    (txid : Nat) (e1 : Option GoErr) : RunOutcome :=
  let estr := errText e1
  let txerr := wrapOpt env.saveExec (saveStatusMsg m)
  let tr := tr ++ [DBOp.execReplace txid (trackingTable o.trackingTable)
      m.library m.name e1.isNone estr]
  let err2 : Option GoErr :=
    match e1, txerr with
    | none, t => t
    | some e, none => some e
    | some e, some t => some (.wrap (saveAlsoFailedMsg m t) e)
  match err2 with
  | some e => ⟨some e, tr ++ [DBOp.rollback txid], [], none⟩
  | none =>
    match env.commitResult with
    | some ce => ⟨some (.wrap (commitMsg m) ce), tr ++ [DBOp.commitTx txid], [], none⟩
    | none =>
      ⟨none, tr ++ [DBOp.commitTx txid],
        [⟨m.library, m.name, e1.isNone, estr⟩], some ⟨true⟩⟩

/-- The failure branch of DoOneMigration (mysql.go:197-205): wrap the
    migration error, roll back the migration transaction, and open a fresh
    transaction for saving status.  If that BeginTx fails, return with both
    errors; the deferred handler then rolls back the (already rolled back)
    migration transaction again. -/
def failurePhase (env : Env) (o : DBOptions) (m : Migration) (tr : List DBOp)
    (e : GoErr) : RunOutcome :=
  let e1 := GoErr.wrap (problemMsg m) e
  let tr := tr ++ [DBOp.rollback 1]
  match env.beginTx2 with
  | some txe =>
    ⟨some (.wrap (saveTxFailMsg m txe) e1), tr ++ [DBOp.beginTxFail, DBOp.rollback 1], [], none⟩
  | none => savePhase env o m (tr ++ [DBOp.beginTxOk 2]) 2 (some e1)

/-- The action section of DoOneMigration (mysql.go:178-196): run the script
    (after the policy switch, wrapping any error with the script text,
    mirroring errors.Wrap(err, script)) or the computed action, in the
    migration transaction. -/
def actionPhase (env : Env) (o : DBOptions) (m : Migration) (tr : List DBOp) : RunOutcome :=
  match m.action with
  | .script text check =>
    match policyError check m.hasSkipIf with
    | some pe => failurePhase env o m tr (GoErr.wrap text pe)
    | none =>
      match env.execResult with
      | some e => failurePhase env o m (tr ++ [DBOp.execScript 1 text]) (GoErr.wrap text e)
      | none => savePhase env o m (tr ++ [DBOp.execScript 1 text]) 1 none
  | .computed =>
    match env.computedResult with
    | some e => failurePhase env o m (tr ++ [DBOp.runComputed 1]) e
    | none => savePhase env o m (tr ++ [DBOp.runComputed 1]) 1 none

/-- The schema-override section of DoOneMigration (mysql.go:169-177):
    validate Options.SchemaOverride and issue the USE statement in the
    migration transaction. -/
def overridePhase (env : Env) (o : DBOptions) (m : Migration) : RunOutcome :=
  if o.schemaOverride = "" then
    actionPhase env o m [DBOp.beginTxOk 1]
  else if simpleIdentifier o.schemaOverride = false then
    ⟨some (.base (overrideMsg o.schemaOverride)),
      [DBOp.beginTxOk 1, DBOp.rollback 1], [], none⟩
  else
    match env.useExec with
    | some e =>
      ⟨some (.wrap (useMsg o.schemaOverride m) e),
        [DBOp.beginTxOk 1, DBOp.execUse 1 o.schemaOverride, DBOp.rollback 1], [], none⟩
    | none => actionPhase env o m [DBOp.beginTxOk 1, DBOp.execUse 1 o.schemaOverride]

/-- DoOneMigration (mysql.go:149-215). -/
def DoOneMigration (env : Env) (o : DBOptions) (m : Migration) : RunOutcome :=
  match env.beginTx1 with
  | some e => ⟨some (.wrap (beginTxMsg m) e), [DBOp.beginTxFail], [], none⟩
  | none => overridePhase env o m

/-- Predicate on operations: the tracking-table REPLACE write of saveStatus. -/
def isReplaceOp : DBOp → Bool
  | .execReplace .. => true
  | _ => false

/-- Predicate on operations: a successfully opened transaction. -/
def isBeginOp : DBOp → Bool
  | .beginTxOk _ => true
  | _ => false

/-- Predicate on operations: execution of a migration script's SQL text. -/
def isScriptExecOp : DBOp → Bool
  | .execScript .. => true
  | _ => false

/-- The tracking-table row writes issued in a trace. -/
def replaceOps (tr : List DBOp) : List DBOp := tr.filter isReplaceOp

/-- The successful transaction opens in a trace. -/
def beginOps (tr : List DBOp) : List DBOp := tr.filter isBeginOp

/-- The script-text executions in a trace. -/
def scriptExecOps (tr : List DBOp) : List DBOp := tr.filter isScriptExecOp

/-- Number of tracking-table row writes issued in a trace. -/
def replaceCount (tr : List DBOp) : Nat := (replaceOps tr).length

/-- Number of transactions opened in a trace. -/
def txOpenCount (tr : List DBOp) : Nat := (beginOps tr).length

/-- Whether the error value `s` appears as a message component anywhere in the
    wrap chain of an error. -/
def GoErr.mentions : GoErr → String → Bool
  | .base m, s => m == s
  | .wrap m c, s => m == s || c.mentions s

/-- `GoErr.mentions` lifted to a possibly-nil error. -/
def errMentions : Option GoErr → String → Bool
  | none, _ => false
  | some e, s => e.mentions s

/-- The value of `err` after the action section of DoOneMigration
    (mysql.go:178-196), as a function of the environment and migration. -/
def attemptErr (env : Env) (m : Migration) : Option GoErr :=
  match m.action with
  | .script text check =>
    match policyError check m.hasSkipIf with
    | some pe => some (GoErr.wrap text pe)
    | none => wrapOpt env.execResult text
  | .computed => env.computedResult

/-- Whether the schema-override section of DoOneMigration completes without
    returning: no override configured, or a valid identifier whose USE
    statement succeeds. -/
def overridePhaseOk (env : Env) (o : DBOptions) : Bool :=
  decide (o.schemaOverride = "") ||
    (simpleIdentifier o.schemaOverride && env.useExec.isNone)

/-- Whether an invocation of DoOneMigration reaches the saveStatus call: the
    first BeginTx succeeds, the override section completes, and — when the
    attempt fails — the second BeginTx succeeds too. -/
def reachesSave (env : Env) (o : DBOptions) (m : Migration) : Bool :=
  env.beginTx1.isNone && overridePhaseOk env o &&
    (!(attemptErr env m).isSome || env.beginTx2.isNone)

/-- The trace accumulated when the action section is reached. -/
def initTrace (o : DBOptions) : List DBOp :=
  if o.schemaOverride = "" then [DBOp.beginTxOk 1]
  else [DBOp.beginTxOk 1, DBOp.execUse 1 o.schemaOverride]

/-- Outcomes of the driver calls the lock manager can make. -/
structure LockEnv where
  beginTx : Option GoErr
  getLock : Option GoErr
  releaseExec : Option GoErr
  deriving DecidableEq, Repr

/-- The lock-related fields of the MySQL struct (mysql.go:42-50): the pinned
    lock transaction (none = not held) and the lock name. -/
structure LockState where
  lockTx : Option Nat
  lockStr : String
  deriving DecidableEq, Repr

/-- Result of one lock-manager call: returned error, post state, trace. -/
structure LockOutcome where
  err : Option GoErr
  st : LockState
  trace : List DBOp
  deriving DecidableEq, Repr

/-- LockMigrationsTable (mysql.go:324-347). -/
def LockMigrationsTable (env : LockEnv) (st : LockState) (tt : String) : LockOutcome :=
  match trackingSchemaTable tt with
  | .error e => ⟨some e, st, []⟩
  | .ok (_, tableName) =>
    match st.lockTx with
    | some _ =>
      ⟨some (.base ("libschema migrations table, " ++ tableName ++ " already locked")),
        st, []⟩
    | none =>
      match env.beginTx with
      | some e => ⟨some (.wrap "Could not start transaction: %s" e), st, [DBOp.beginTxFail]⟩
      | none =>
        let lstr := "libschema_" ++ tableName
        match env.getLock with
        | some e =>
          ⟨some (.wrap "Could not get lock for libschema migrations" e),
            ⟨none, lstr⟩, [DBOp.beginTxOk 1, DBOp.execGetLock 1 lstr]⟩
        | none => ⟨none, ⟨some 1, lstr⟩, [DBOp.beginTxOk 1, DBOp.execGetLock 1 lstr]⟩

/-- UnlockMigrationsTable (mysql.go:354-370): the deferred handler rolls the
    pinned transaction back and clears lockTx regardless of the outcome of
    the RELEASE_LOCK statement. -/
def UnlockMigrationsTable (env : LockEnv) (st : LockState) : LockOutcome :=
  match st.lockTx with
  | none => ⟨some (.base "libschema migrations table, not locked"), st, []⟩
  | some t =>
    let tr := [DBOp.execReleaseLock t st.lockStr, DBOp.rollback t]
    match env.releaseExec with
    | some e =>
      ⟨some (.wrap "Could not release explicit lock for schema migrations" e),
        ⟨none, st.lockStr⟩, tr⟩
    | none => ⟨none, ⟨none, st.lockStr⟩, tr⟩

/-- Outcomes of the driver calls CreateSchemaTableIfNotExists can make. -/
structure CreateEnv where
  createSchema : Option GoErr
  createTable : Option GoErr
  deriving DecidableEq, Repr

/-- CreateSchemaTableIfNotExists (mysql.go:221-247). -/
def CreateSchemaTableIfNotExists (env : CreateEnv) (tt : String) :
    Option GoErr × List DBOp :=
  match trackingSchemaTable tt with
  | .error e => (some e, [])
  | .ok (schema, tableName) =>
    let rest : List DBOp → Option GoErr × List DBOp := fun tr =>
      match env.createTable with
      | some e =>
        (some (.wrap ("Could not create libschema migrations table " ++ tableName) e),
          tr ++ [DBOp.execCreateTable tableName])
      | none => (none, tr ++ [DBOp.execCreateTable tableName])
    if schema = "" then rest []
    else
      match env.createSchema with
      | some e =>
        (some (.wrap ("Could not create libschema schema " ++ schema) e),
          [DBOp.execCreateSchema schema])
      | none => rest [DBOp.execCreateSchema schema]

/-- A migration key: (library, migration name). -/
abbrev MKey := String × String

/-- A row of the tracking table as read by LoadStatus (only the columns
    library, migration, done are selected). -/
structure TRow where
  library : String
  mname : String
  done : Bool
  deriving DecidableEq, Repr

/-- The key of a tracking row. -/
def TRow.key (r : TRow) : MKey := (r.library, r.mname)

/-- In-memory migration statuses, keyed by (library, name); models the status
    fields of the registered migrations that d.Lookup resolves and
    SetStatus mutates. -/
def StatusMap := MKey → Option MigrationStatus

/-- One iteration of the row loop of LoadStatus (mysql.go:388-402): a row of
    a known migration sets that migration's in-memory status; otherwise a
    done row is appended to the unknowns, and any other row is dropped. -/
def loadStep (known : List MKey) (acc : StatusMap × List MKey) (r : TRow) :
    StatusMap × List MKey :=
  if r.key ∈ known then
    (fun k => if k = r.key then some ⟨r.done⟩ else acc.1 k, acc.2)
  else if r.done then (acc.1, acc.2 ++ [r.key])
  else acc

/-- The row loop of LoadStatus over all rows. -/
def loadResult (known : List MKey) (σ : StatusMap) (rows : List TRow) :
    StatusMap × List MKey :=
  rows.foldl (loadStep known) (σ, [])

/-- LoadStatus (mysql.go:377-404): `qerr` is the outcome of the SELECT; on
    success the rows drive the loop and the unknown-completed names are
    returned. -/
def LoadStatus (qerr : Option GoErr) (known : List MKey) (σ : StatusMap)
    (rows : List TRow) : Except GoErr (StatusMap × List MKey) :=
  match qerr with
  | some e => .error (.wrap "Cannot query migration status" e)
  | none => .ok (loadResult known σ rows)

/-- Environment where every driver call succeeds. -/
def envOk : Env := ⟨none, none, none, none, none, none, none⟩

/-- Environment where every driver call succeeds except the computed action,
    which fails with the error "boom". -/
def envFail : Env := { envOk with computedResult := some (.base "boom") }

/-- A computed migration named (lib, m1). -/
def mComputed : Migration := ⟨"lib", "m1", .computed, false⟩

/-- Options with no schema override and tracking table "tracking". -/
def optsPlain : DBOptions := ⟨"", "tracking"⟩

/-- Options whose schema override is not a valid identifier. -/
def optsBadOv : DBOptions := ⟨"1bad", "tracking"⟩

/-- Environment where the first BeginTx fails. -/
def envBeginFail : Env := { envOk with beginTx1 := some (.base "connfail") }

/-- Environment where the computed action fails and the second BeginTx also
    fails. -/
def envSaveTxFail : Env :=
  { envOk with computedResult := some (.base "boom"), beginTx2 := some (.base "txfail") }

/-- A script migration whose text mixes DDL and DML, with no skip-if. -/
def mScriptMixed : Migration :=
  ⟨"lib", "s1", .script "CREATE TABLE t (i INT); INSERT INTO t VALUES (1)" .dataAndDDL, false⟩

/-- A script migration with idempotent DDL. -/
def mScriptSafe : Migration :=
  ⟨"lib", "s2", .script "CREATE TABLE IF NOT EXISTS t (i INT)" .safe, false⟩

/-- Lock environment where every driver call succeeds. -/
def lockEnvOk : LockEnv := ⟨none, none, none⟩

/-- Lock environment where the RELEASE_LOCK statement fails. -/
def lockEnvRelFail : LockEnv := { lockEnvOk with releaseExec := some (.base "relfail") }

/-- A lock-manager state currently holding the lock. -/
def heldState : LockState := ⟨some 1, "libschema_tracking"⟩

/-- A lock-manager state not holding the lock. -/
def freeState : LockState := ⟨none, ""⟩

/-- Example tracking rows: a done row of a known migration, a done row of an
    unknown migration, and an unknown row that is not done. -/
def demoRows : List TRow :=
  [⟨"lib", "m1", true⟩, ⟨"old", "gone", true⟩, ⟨"x", "y", false⟩]

/-- The SQL text produced and classification assumed by the action of a
    migration, for use in lemma statements. -/
def actionOps (m : Migration) : List DBOp :=
  match m.action with
  | .script text check =>
    match policyError check m.hasSkipIf with
    | some _ => []
    | none => [DBOp.execScript 1 text]
  | .computed => [DBOp.runComputed 1]

theorem replaceOps_append (a b : List DBOp) :
    replaceOps (a ++ b) = replaceOps a ++ replaceOps b := by
  simp [replaceOps]

theorem beginOps_append (a b : List DBOp) :
    beginOps (a ++ b) = beginOps a ++ beginOps b := by
  simp [beginOps]

theorem scriptExecOps_append (a b : List DBOp) :
    scriptExecOps (a ++ b) = scriptExecOps a ++ scriptExecOps b := by
  simp [scriptExecOps]

theorem replaceOps_initTrace (o : DBOptions) : replaceOps (initTrace o) = [] := by
  unfold initTrace; split <;> rfl

theorem beginOps_initTrace (o : DBOptions) :
    beginOps (initTrace o) = [DBOp.beginTxOk 1] := by
  unfold initTrace; split <;> rfl

theorem scriptExecOps_initTrace (o : DBOptions) : scriptExecOps (initTrace o) = [] := by
  unfold initTrace; split <;> rfl

theorem replaceOps_actionOps (m : Migration) : replaceOps (actionOps m) = [] := by
  cases h : m.action with
  | script text check =>
    cases hp : policyError check m.hasSkipIf <;>
      simp [actionOps, h, hp, replaceOps, isReplaceOp]
  | computed => simp [actionOps, h, replaceOps, isReplaceOp]

theorem beginOps_actionOps (m : Migration) : beginOps (actionOps m) = [] := by
  cases h : m.action with
  | script text check =>
    cases hp : policyError check m.hasSkipIf <;>
      simp [actionOps, h, hp, beginOps, isBeginOp]
  | computed => simp [actionOps, h, beginOps, isBeginOp]

theorem mentions_wrap_of_cause {c : GoErr} {s : String} (w : String)
    (h : c.mentions s = true) : (GoErr.wrap w c).mentions s = true := by
  simp [GoErr.mentions, h]

theorem savePhase_replaceOps (env : Env) (o : DBOptions) (m : Migration)
    (tr : List DBOp) (txid : Nat) (e1 : Option GoErr) :
    replaceOps (savePhase env o m tr txid e1).trace =
      replaceOps tr ++ [DBOp.execReplace txid (trackingTable o.trackingTable)
        m.library m.name e1.isNone (errText e1)] := by
  cases e1 <;> cases h : env.saveExec <;> cases hc : env.commitResult <;>
    simp [savePhase, h, hc, wrapOpt, replaceOps, isReplaceOp, errText]

theorem savePhase_beginOps (env : Env) (o : DBOptions) (m : Migration)
    (tr : List DBOp) (txid : Nat) (e1 : Option GoErr) :
    beginOps (savePhase env o m tr txid e1).trace = beginOps tr := by
  cases e1 <;> cases h : env.saveExec <;> cases hc : env.commitResult <;>
    simp [savePhase, h, hc, wrapOpt, beginOps, isBeginOp]

theorem savePhase_scriptExecOps (env : Env) (o : DBOptions) (m : Migration)
    (tr : List DBOp) (txid : Nat) (e1 : Option GoErr) :
    scriptExecOps (savePhase env o m tr txid e1).trace = scriptExecOps tr := by
  cases e1 <;> cases h : env.saveExec <;> cases hc : env.commitResult <;>
    simp [savePhase, h, hc, wrapOpt, scriptExecOps, isScriptExecOp]

theorem mem_savePhase_trace {a : DBOp} {tr : List DBOp} (env : Env) (o : DBOptions)
    (m : Migration) (txid : Nat) (e1 : Option GoErr) (h : a ∈ tr) :
    a ∈ (savePhase env o m tr txid e1).trace := by
  cases e1 <;> cases hs : env.saveExec <;> cases hc : env.commitResult <;>
    simp [savePhase, hs, hc, wrapOpt, h]

theorem savePhase_err_fail (env : Env) (o : DBOptions) (m : Migration)
    (tr : List DBOp) (txid : Nat) (e1 : GoErr) :
    ∃ e', (savePhase env o m tr txid (some e1)).err = some e' ∧
      ∀ s, e1.mentions s = true → e'.mentions s = true := by
  cases hs : env.saveExec with
  | none => exact ⟨e1, by simp [savePhase, hs, wrapOpt], fun s h => h⟩
  | some t =>
    refine ⟨.wrap (saveAlsoFailedMsg m (.wrap (saveStatusMsg m) t)) e1,
      by simp [savePhase, hs, wrapOpt], fun s h => ?_⟩
    simp [GoErr.mentions, h]

theorem failurePhase_out_some (env : Env) (o : DBOptions) (m : Migration)
    (tr : List DBOp) (e txe : GoErr) (h : env.beginTx2 = some txe) :
    failurePhase env o m tr e =
      ⟨some (.wrap (saveTxFailMsg m txe) (.wrap (problemMsg m) e)),
        tr ++ [DBOp.rollback 1, DBOp.beginTxFail, DBOp.rollback 1], [], none⟩ := by
  simp [failurePhase, h]

theorem failurePhase_replaceOps_none (env : Env) (o : DBOptions) (m : Migration)
    (tr : List DBOp) (e : GoErr) (h : env.beginTx2 = none) :
    replaceOps (failurePhase env o m tr e).trace =
      replaceOps tr ++ [DBOp.execReplace 2 (trackingTable o.trackingTable)
        m.library m.name false (GoErr.wrap (problemMsg m) e).message] := by
  simp only [failurePhase, h]
  rw [savePhase_replaceOps]
  simp [replaceOps_append, replaceOps, isReplaceOp, errText]

theorem failurePhase_beginOps (env : Env) (o : DBOptions) (m : Migration)
    (tr : List DBOp) (e : GoErr) :
    beginOps (failurePhase env o m tr e).trace =
      beginOps tr ++ (if env.beginTx2.isNone then [DBOp.beginTxOk 2] else []) := by
  cases h : env.beginTx2 with
  | none =>
    simp only [failurePhase, h]
    rw [savePhase_beginOps]
    simp [beginOps_append, beginOps, isBeginOp]
  | some txe => simp [failurePhase, h, beginOps, isBeginOp]

theorem failurePhase_scriptExecOps (env : Env) (o : DBOptions) (m : Migration)
    (tr : List DBOp) (e : GoErr) :
    scriptExecOps (failurePhase env o m tr e).trace = scriptExecOps tr := by
  cases h : env.beginTx2 with
  | none =>
    simp only [failurePhase, h]
    rw [savePhase_scriptExecOps]
    simp [scriptExecOps_append, scriptExecOps, isScriptExecOp]
  | some txe => simp [failurePhase, h, scriptExecOps, isScriptExecOp]

theorem mem_failurePhase_trace {a : DBOp} {tr : List DBOp} (env : Env)
    (o : DBOptions) (m : Migration) (e : GoErr) (h : a ∈ tr) :
    a ∈ (failurePhase env o m tr e).trace := by
  cases h2 : env.beginTx2 with
  | none =>
    simp only [failurePhase, h2]
    exact mem_savePhase_trace env o m 2 (some (.wrap (problemMsg m) e))
      (by simp [h])
  | some txe => simp [failurePhase, h2, h]

theorem failurePhase_err (env : Env) (o : DBOptions) (m : Migration)
    (tr : List DBOp) (e : GoErr) :
    ∃ e', (failurePhase env o m tr e).err = some e' ∧
      ∀ s, e.mentions s = true → e'.mentions s = true := by
  cases h2 : env.beginTx2 with
  | none =>
    simp only [failurePhase, h2]
    obtain ⟨e', he', hm⟩ :=
      savePhase_err_fail env o m (tr ++ [DBOp.rollback 1] ++ [DBOp.beginTxOk 2]) 2
        (.wrap (problemMsg m) e)
    exact ⟨e', he', fun s h => hm s (mentions_wrap_of_cause _ h)⟩
  | some txe =>
    refine ⟨.wrap (saveTxFailMsg m txe) (.wrap (problemMsg m) e),
      by simp [failurePhase, h2], fun s h => ?_⟩
    exact mentions_wrap_of_cause _ (mentions_wrap_of_cause _ h)

theorem actionPhase_eq (env : Env) (o : DBOptions) (m : Migration) (tr : List DBOp) :
    actionPhase env o m tr =
      match attemptErr env m with
      | some e => failurePhase env o m (tr ++ actionOps m) e
      | none => savePhase env o m (tr ++ actionOps m) 1 none := by
  cases h : m.action with
  | script text check =>
    cases hp : policyError check m.hasSkipIf with
    | some pe => simp [actionPhase, attemptErr, actionOps, h, hp]
    | none =>
      cases hr : env.execResult <;>
        simp [actionPhase, attemptErr, actionOps, h, hp, hr, wrapOpt]
  | computed =>
    cases hc : env.computedResult <;>
      simp [actionPhase, attemptErr, actionOps, h, hc]

theorem actionPhase_eq_fail (env : Env) (o : DBOptions) (m : Migration)
    (tr : List DBOp) (e : GoErr) (h : attemptErr env m = some e) :
    actionPhase env o m tr = failurePhase env o m (tr ++ actionOps m) e := by
  rw [actionPhase_eq, h]

theorem actionPhase_eq_ok (env : Env) (o : DBOptions) (m : Migration)
    (tr : List DBOp) (h : attemptErr env m = none) :
    actionPhase env o m tr = savePhase env o m (tr ++ actionOps m) 1 none := by
  rw [actionPhase_eq, h]

theorem doOne_reach (env : Env) (o : DBOptions) (m : Migration)
    (hb : env.beginTx1 = none) (hov : overridePhaseOk env o = true) :
    DoOneMigration env o m = actionPhase env o m (initTrace o) := by
  unfold DoOneMigration overridePhase initTrace
  rw [hb]
  by_cases h : o.schemaOverride = ""
  · simp [h]
  · have hso : simpleIdentifier o.schemaOverride = true ∧ env.useExec = none := by
      unfold overridePhaseOk at hov
      simp [h] at hov
      exact ⟨hov.1, hov.2⟩
    simp [h, hso.1, hso.2]

theorem doOne_override_abort (env : Env) (o : DBOptions) (m : Migration)
    (hb : env.beginTx1 = none) (hov : overridePhaseOk env o = false) :
    replaceOps (DoOneMigration env o m).trace = [] ∧
    beginOps (DoOneMigration env o m).trace = [DBOp.beginTxOk 1] ∧
    scriptExecOps (DoOneMigration env o m).trace = [] := by
  unfold DoOneMigration overridePhase
  rw [hb]
  by_cases h : o.schemaOverride = ""
  · exfalso; simp [overridePhaseOk, h] at hov
  · cases hs : simpleIdentifier o.schemaOverride with
    | false =>
      simp [h, hs, replaceOps, beginOps, scriptExecOps, isReplaceOp, isBeginOp,
        isScriptExecOp]
    | true =>
      cases hu : env.useExec with
      | none => exfalso; simp [overridePhaseOk, h, hs, hu] at hov
      | some e =>
        simp [h, hs, hu, replaceOps, beginOps, scriptExecOps, isReplaceOp,
          isBeginOp, isScriptExecOp]

/-- C1: For a failed migration attempt in which every driver call succeeds,
    DoOneMigration issues the done=false tracking-row write in the fresh
    status transaction, but the deferred commit/rollback handler — which by
    then sees the reassigned transaction variable — rolls that transaction
    back, so no tracking row is ever committed; the wrapped migration error
    is still returned.  This contradicts the claim (and the package's own doc
    comment) that the failed status is durably recorded. -/
theorem failedMigration_status_row_not_committed :
    (DoOneMigration envFail optsPlain mComputed).committed = [] ∧
    (DoOneMigration envFail optsPlain mComputed).err =
      some (.wrap (problemMsg mComputed) (.base "boom")) ∧
    (DoOneMigration envFail optsPlain mComputed).trace =
      [DBOp.beginTxOk 1, DBOp.runComputed 1, DBOp.rollback 1, DBOp.beginTxOk 2,
       DBOp.execReplace 2 "tracking" "lib" "m1" false
         ((GoErr.wrap (problemMsg mComputed) (.base "boom")).message),
       DBOp.rollback 2] := by
  refine ⟨rfl, rfl, rfl⟩

/-- C2 counterexample: when opening the migration transaction fails, the
    invocation returns without issuing any tracking-table row write, refuting
    "exactly one tracking-table row write per invocation". -/
theorem beginTxFailure_zero_row_writes :
    replaceCount (DoOneMigration envBeginFail optsPlain mComputed).trace = 0 ∧
    (DoOneMigration envBeginFail optsPlain mComputed).err =
      some (.wrap (beginTxMsg mComputed) (.base "connfail")) := ⟨rfl, rfl⟩

/-- C2 (amended): every invocation of DoOneMigration issues at most one
    tracking-table row write (an upsert-by-replace) and opens at most two
    transactions; the write count is exactly one whenever the invocation
    reaches the saveStatus call (first transaction opens, override section
    succeeds, and — if the attempt failed — the status transaction opens). -/
theorem row_write_and_tx_bounds (env : Env) (o : DBOptions) (m : Migration) :
    replaceCount (DoOneMigration env o m).trace ≤ 1 ∧
    txOpenCount (DoOneMigration env o m).trace ≤ 2 ∧
    (reachesSave env o m = true →
      replaceCount (DoOneMigration env o m).trace = 1) := by
  cases hb : env.beginTx1 with
  | some e =>
    refine ⟨?_, ?_, fun hr => ?_⟩
    · simp [DoOneMigration, hb, replaceCount, replaceOps, isReplaceOp]
    · simp [DoOneMigration, hb, txOpenCount, beginOps, isBeginOp]
    · simp [reachesSave, hb] at hr
  | none =>
    cases hov : overridePhaseOk env o with
    | false =>
      obtain ⟨h1, h2, _⟩ := doOne_override_abort env o m hb hov
      refine ⟨?_, ?_, fun hr => ?_⟩
      · simp [replaceCount, h1]
      · simp [txOpenCount, h2]
      · simp [reachesSave, hb, hov] at hr
    | true =>
      rw [doOne_reach env o m hb hov]
      cases ha : attemptErr env m with
      | none =>
        rw [actionPhase_eq_ok env o m (initTrace o) ha]
        have hrep : replaceOps (savePhase env o m (initTrace o ++ actionOps m)
            1 none).trace = [DBOp.execReplace 1 (trackingTable o.trackingTable)
              m.library m.name true ""] := by
          rw [savePhase_replaceOps, replaceOps_append, replaceOps_initTrace,
            replaceOps_actionOps]
          simp [errText]
        have hbeg : beginOps (savePhase env o m (initTrace o ++ actionOps m)
            1 none).trace = [DBOp.beginTxOk 1] := by
          rw [savePhase_beginOps, beginOps_append, beginOps_initTrace,
            beginOps_actionOps]
          simp
        refine ⟨?_, ?_, fun _ => ?_⟩
        · simp [replaceCount, hrep]
        · simp [txOpenCount, hbeg]
        · simp [replaceCount, hrep]
      | some e =>
        rw [actionPhase_eq_fail env o m (initTrace o) e ha]
        cases h2 : env.beginTx2 with
        | some txe =>
          rw [failurePhase_out_some env o m (initTrace o ++ actionOps m) e txe h2]
          refine ⟨?_, ?_, fun hr => ?_⟩
          · simp only [replaceCount]
            rw [replaceOps_append, replaceOps_append, replaceOps_initTrace,
              replaceOps_actionOps]
            simp [replaceOps, isReplaceOp]
          · simp only [txOpenCount]
            rw [beginOps_append, beginOps_append, beginOps_initTrace,
              beginOps_actionOps]
            simp [beginOps, isBeginOp]
          · simp [reachesSave, hb, hov, ha, h2] at hr
        | none =>
          have hrep : replaceOps (failurePhase env o m
              (initTrace o ++ actionOps m) e).trace =
              [DBOp.execReplace 2 (trackingTable o.trackingTable)
                m.library m.name false (GoErr.wrap (problemMsg m) e).message] := by
            rw [failurePhase_replaceOps_none env o m (initTrace o ++ actionOps m) e h2,
              replaceOps_append, replaceOps_initTrace, replaceOps_actionOps]
            simp
          have hbeg : beginOps (failurePhase env o m
              (initTrace o ++ actionOps m) e).trace =
              [DBOp.beginTxOk 1, DBOp.beginTxOk 2] := by
            rw [failurePhase_beginOps, beginOps_append, beginOps_initTrace,
              beginOps_actionOps, h2]
            simp
          refine ⟨?_, ?_, fun _ => ?_⟩
          · simp [replaceCount, hrep]
          · simp [txOpenCount, hbeg]
          · simp [replaceCount, hrep]

/-- C2 witness: a successful run reaches saveStatus and issues exactly one
    tracking-table row write. -/
theorem row_write_and_tx_bounds_witness :
    reachesSave envOk optsPlain mComputed = true ∧
    replaceCount (DoOneMigration envOk optsPlain mComputed).trace = 1 :=
  ⟨rfl, (row_write_and_tx_bounds envOk optsPlain mComputed).2.2 rfl⟩

/-- C3 counterexample: in a successful invocation the status-persistence
    write is issued inside the migration's own transaction (transaction 1,
    the only transaction opened), refuting "always ... in a transaction
    independent of the migration's own transaction". -/
theorem success_status_write_shares_migration_tx :
    (DoOneMigration envOk optsPlain mComputed).trace =
      [DBOp.beginTxOk 1, DBOp.runComputed 1,
       DBOp.execReplace 1 "tracking" "lib" "m1" true "",
       DBOp.commitTx 1] ∧
    txOpenCount (DoOneMigration envOk optsPlain mComputed).trace = 1 := ⟨rfl, rfl⟩

/-- C3 (amended): when the attempt fails and the fresh status transaction
    opens, the single status write is issued in that fresh transaction
    (id 2), after the migration transaction (id 1) was rolled back, with
    done=false and the wrapped error text; when the attempt succeeds, the
    single status write (done=true, empty error text) is issued in the
    migration's own transaction (id 1). -/
theorem status_write_transaction_placement (env : Env) (o : DBOptions)
    (m : Migration) (e : GoErr)
    (hb : env.beginTx1 = none) (hov : overridePhaseOk env o = true) :
    (attemptErr env m = some e → env.beginTx2 = none →
       replaceOps (DoOneMigration env o m).trace =
         [DBOp.execReplace 2 (trackingTable o.trackingTable) m.library m.name
           false (GoErr.wrap (problemMsg m) e).message] ∧
       DBOp.rollback 1 ∈ (DoOneMigration env o m).trace) ∧
    (attemptErr env m = none →
       replaceOps (DoOneMigration env o m).trace =
         [DBOp.execReplace 1 (trackingTable o.trackingTable) m.library m.name
           true ""]) := by
  rw [doOne_reach env o m hb hov]
  constructor
  · intro ha h2
    rw [actionPhase_eq_fail env o m (initTrace o) e ha]
    constructor
    · rw [failurePhase_replaceOps_none env o m (initTrace o ++ actionOps m) e h2,
        replaceOps_append, replaceOps_initTrace, replaceOps_actionOps]
      simp
    · simp only [failurePhase, h2]
      exact mem_savePhase_trace env o m 2 (some (.wrap (problemMsg m) e)) (by simp)
  · intro ha
    rw [actionPhase_eq_ok env o m (initTrace o) ha]
    rw [savePhase_replaceOps, replaceOps_append, replaceOps_initTrace,
      replaceOps_actionOps]
    simp [errText]

/-- C3 witness: the failed computed migration's status write goes to the
    fresh transaction with done=false. -/
theorem status_write_transaction_placement_witness :
    replaceOps (DoOneMigration envFail optsPlain mComputed).trace =
      [DBOp.execReplace 2 "tracking" "lib" "m1" false
        (GoErr.wrap (problemMsg mComputed) (.base "boom")).message] ∧
    DBOp.rollback 1 ∈ (DoOneMigration envFail optsPlain mComputed).trace :=
  (status_write_transaction_placement envFail optsPlain mComputed
    (.base "boom") rfl rfl).1 rfl rfl

/-- Helper: a script whose classification is rejected by the policy switch is
    never executed, on any control path. -/
theorem doOne_no_script_exec (env : Env) (o : DBOptions) (m : Migration)
    (text : String) (check : CheckType) (pe : GoErr)
    (hact : m.action = .script text check)
    (hp : policyError check m.hasSkipIf = some pe) :
    scriptExecOps (DoOneMigration env o m).trace = [] := by
  cases hb : env.beginTx1 with
  | some e => simp [DoOneMigration, hb, scriptExecOps, isScriptExecOp]
  | none =>
    cases hov : overridePhaseOk env o with
    | false => exact (doOne_override_abort env o m hb hov).2.2
    | true =>
      have ha : attemptErr env m = some (.wrap text pe) := by
        simp [attemptErr, hact, hp]
      rw [doOne_reach env o m hb hov,
        actionPhase_eq_fail env o m (initTrace o) (.wrap text pe) ha]
      rw [failurePhase_scriptExecOps, scriptExecOps_append, scriptExecOps_initTrace]
      have hops : actionOps m = [] := by simp [actionOps, hact, hp]
      simp [hops, scriptExecOps]

/-- Helper: when a policy rejection occurs and the run had reached the action
    section, the returned error mentions the policy message. -/
theorem doOne_err_mentions_policy (env : Env) (o : DBOptions) (m : Migration)
    (text : String) (check : CheckType) (pe : GoErr) (s : String)
    (hact : m.action = .script text check)
    (hp : policyError check m.hasSkipIf = some pe)
    (hm : pe.mentions s = true)
    (hb : env.beginTx1 = none) (hov : overridePhaseOk env o = true) :
    errMentions (DoOneMigration env o m).err s = true := by
  have ha : attemptErr env m = some (.wrap text pe) := by
    simp [attemptErr, hact, hp]
  rw [doOne_reach env o m hb hov,
    actionPhase_eq_fail env o m (initTrace o) (.wrap text pe) ha]
  obtain ⟨e', he', hml⟩ :=
    failurePhase_err env o m (initTrace o ++ actionOps m) (.wrap text pe)
  rw [he']
  simp only [errMentions]
  exact hml s (mentions_wrap_of_cause _ hm)

/-- Helper: a script the policy accepts is executed once the run reaches the
    action section. -/
theorem doOne_script_executed (env : Env) (o : DBOptions) (m : Migration)
    (text : String) (check : CheckType)
    (hact : m.action = .script text check)
    (hp : policyError check m.hasSkipIf = none)
    (hb : env.beginTx1 = none) (hov : overridePhaseOk env o = true) :
    DBOp.execScript 1 text ∈ (DoOneMigration env o m).trace := by
  rw [doOne_reach env o m hb hov]
  have hops : actionOps m = [DBOp.execScript 1 text] := by
    simp [actionOps, hact, hp]
  cases ha : attemptErr env m with
  | some e =>
    rw [actionPhase_eq_fail env o m (initTrace o) e ha]
    exact mem_failurePhase_trace env o m e (by simp [hops])
  | none =>
    rw [actionPhase_eq_ok env o m (initTrace o) ha]
    exact mem_savePhase_trace env o m 1 none (by simp [hops])

/-- C4: a script classified DataAndDDL is rejected unconditionally (never
    executed, and when the run reaches the policy switch the returned error
    carries the mixed-DDL message); a script classified NonIdempotentDDL is
    rejected exactly when the migration declares no skip-if condition; in the
    remaining cases the script is executed. -/
theorem script_policy_enforcement (env : Env) (o : DBOptions) (m : Migration)
    (text : String) :
    (m.action = .script text .dataAndDDL →
       scriptExecOps (DoOneMigration env o m).trace = [] ∧
       (env.beginTx1 = none → overridePhaseOk env o = true →
          errMentions (DoOneMigration env o m).err mixedMsg = true)) ∧
    (m.action = .script text .nonIdempotentDDL → m.hasSkipIf = false →
       scriptExecOps (DoOneMigration env o m).trace = [] ∧
       (env.beginTx1 = none → overridePhaseOk env o = true →
          errMentions (DoOneMigration env o m).err nonIdemMsg = true)) ∧
    (m.action = .script text .nonIdempotentDDL → m.hasSkipIf = true →
       env.beginTx1 = none → overridePhaseOk env o = true →
         DBOp.execScript 1 text ∈ (DoOneMigration env o m).trace) ∧
    (m.action = .script text .safe →
       env.beginTx1 = none → overridePhaseOk env o = true →
         DBOp.execScript 1 text ∈ (DoOneMigration env o m).trace) := by
  refine ⟨fun hact => ⟨?_, fun hb hov => ?_⟩,
    fun hact hskip => ⟨?_, fun hb hov => ?_⟩,
    fun hact hskip hb hov => ?_, fun hact hb hov => ?_⟩
  · exact doOne_no_script_exec env o m text .dataAndDDL (.base mixedMsg) hact rfl
  · exact doOne_err_mentions_policy env o m text .dataAndDDL (.base mixedMsg)
      mixedMsg hact rfl (by simp [GoErr.mentions]) hb hov
  · exact doOne_no_script_exec env o m text .nonIdempotentDDL (.base nonIdemMsg)
      hact (by simp [policyError, hskip])
  · exact doOne_err_mentions_policy env o m text .nonIdempotentDDL
      (.base nonIdemMsg) nonIdemMsg hact (by simp [policyError, hskip])
      (by simp [GoErr.mentions]) hb hov
  · exact doOne_script_executed env o m text .nonIdempotentDDL hact
      (by simp [policyError, hskip]) hb hov
  · exact doOne_script_executed env o m text .safe hact rfl hb hov

/-- C4 witness: the mixed-DDL script is rejected without execution and the
    error mentions the policy message; the safe script is executed. -/
theorem script_policy_enforcement_witness :
    scriptExecOps (DoOneMigration envOk optsPlain mScriptMixed).trace = [] ∧
    errMentions (DoOneMigration envOk optsPlain mScriptMixed).err mixedMsg = true ∧
    DBOp.execScript 1 "CREATE TABLE IF NOT EXISTS t (i INT)" ∈
      (DoOneMigration envOk optsPlain mScriptSafe).trace := by
  have h1 := (script_policy_enforcement envOk optsPlain mScriptMixed
      "CREATE TABLE t (i INT); INSERT INTO t VALUES (1)").1 rfl
  have h2 := (script_policy_enforcement envOk optsPlain mScriptSafe
      "CREATE TABLE IF NOT EXISTS t (i INT)").2.2.2 rfl rfl rfl
  exact ⟨h1.1, h1.2 rfl rfl, h2⟩

/-- C5 counterexample: with an invalid namespace-override identifier, the
    configuration error is returned only after a transaction has been opened
    (database I/O), refuting "surfaced ... before any database I/O". -/
theorem override_config_error_after_beginTx :
    (DoOneMigration envOk optsBadOv mComputed).err =
      some (.base (overrideMsg "1bad")) ∧
    (DoOneMigration envOk optsBadOv mComputed).trace =
      [DBOp.beginTxOk 1, DBOp.rollback 1] := ⟨rfl, rfl⟩

/-- C5 (amended): a malformed tracking-table name is surfaced before any
    database I/O by LockMigrationsTable and CreateSchemaTableIfNotExists
    (which validate it), while in DoOneMigration an invalid namespace-override
    identifier is surfaced only after the migration transaction has been
    opened — though before any migration or tracking SQL is issued. -/
theorem configuration_error_surfacing (env : Env) (lenv : LockEnv)
    (cenv : CreateEnv) (st : LockState) (o : DBOptions) (m : Migration)
    (tt : String) (e : GoErr) :
    (trackingSchemaTable tt = .error e →
       LockMigrationsTable lenv st tt = ⟨some e, st, []⟩ ∧
       CreateSchemaTableIfNotExists cenv tt = (some e, [])) ∧
    (env.beginTx1 = none → o.schemaOverride ≠ "" →
     simpleIdentifier o.schemaOverride = false →
       DoOneMigration env o m =
         ⟨some (.base (overrideMsg o.schemaOverride)),
          [DBOp.beginTxOk 1, DBOp.rollback 1], [], none⟩) := by
  constructor
  · intro h
    exact ⟨by simp [LockMigrationsTable, h], by simp [CreateSchemaTableIfNotExists, h]⟩
  · intro hb hne hbad
    simp [DoOneMigration, hb, overridePhase, hne, hbad]

/-- C5 witness: a three-part tracking-table name is rejected by the lock
    manager with no database operation issued, and the invalid override
    surfaces from DoOneMigration after one transaction was opened. -/
theorem configuration_error_surfacing_witness :
    LockMigrationsTable lockEnvOk freeState "a.b.c" =
      ⟨some (.base "Tracking table a.b.c is not valid"), freeState, []⟩ ∧
    DoOneMigration envOk optsBadOv mComputed =
      ⟨some (.base (overrideMsg "1bad")),
       [DBOp.beginTxOk 1, DBOp.rollback 1], [], none⟩ := by
  have h := configuration_error_surfacing envOk lockEnvOk ⟨none, none⟩ freeState
    optsBadOv mComputed "a.b.c" (.base "Tracking table a.b.c is not valid")
  exact ⟨(h.1 rfl).1, h.2 rfl (by decide) rfl⟩

/-- C6: when the migration attempt fails and opening the status-save
    transaction also fails, the returned error combines the original
    (wrapped) migration error as its cause with a message carrying the
    transaction error's text, and no status row write is issued. -/
theorem failed_status_tx_open_combines_errors (env : Env) (o : DBOptions)
    (m : Migration) (e txe : GoErr)
    (hb : env.beginTx1 = none) (hov : overridePhaseOk env o = true)
    (ha : attemptErr env m = some e) (h2 : env.beginTx2 = some txe) :
    (DoOneMigration env o m).err =
      some (.wrap (saveTxFailMsg m txe) (.wrap (problemMsg m) e)) ∧
    replaceOps (DoOneMigration env o m).trace = [] ∧
    (DoOneMigration env o m).committed = [] := by
  rw [doOne_reach env o m hb hov, actionPhase_eq_fail env o m (initTrace o) e ha]
  rw [failurePhase_out_some env o m (initTrace o ++ actionOps m) e txe h2]
  refine ⟨rfl, ?_, rfl⟩
  rw [replaceOps_append, replaceOps_append, replaceOps_initTrace,
    replaceOps_actionOps]
  simp [replaceOps, isReplaceOp]

/-- C6 witness. -/
theorem failed_status_tx_open_combines_errors_witness :
    (DoOneMigration envSaveTxFail optsPlain mComputed).err =
      some (.wrap (saveTxFailMsg mComputed (.base "txfail"))
        (.wrap (problemMsg mComputed) (.base "boom"))) ∧
    replaceOps (DoOneMigration envSaveTxFail optsPlain mComputed).trace = [] := by
  have h := failed_status_tx_open_combines_errors envSaveTxFail optsPlain
    mComputed (.base "boom") (.base "txfail") rfl rfl rfl rfl
  exact ⟨h.1, h.2.1⟩

/-- C7: acquiring while the lock is already held returns an error, leaves the
    state unchanged and issues no database operation; releasing while the
    lock is not held likewise returns an error with no state change and no
    database operation. -/
theorem lock_at_most_one_handle (env : LockEnv) (st : LockState)
    (tt sch tbl : String) (t : Nat) :
    (trackingSchemaTable tt = .ok (sch, tbl) → st.lockTx = some t →
       LockMigrationsTable env st tt =
         ⟨some (.base ("libschema migrations table, " ++ tbl ++ " already locked")),
          st, []⟩) ∧
    (st.lockTx = none →
       UnlockMigrationsTable env st =
         ⟨some (.base "libschema migrations table, not locked"), st, []⟩) := by
  constructor
  · intro h1 h2
    simp [LockMigrationsTable, h1, h2]
  · intro h
    simp [UnlockMigrationsTable, h]

/-- C7 witness. -/
theorem lock_at_most_one_handle_witness :
    LockMigrationsTable lockEnvOk heldState "tracking" =
      ⟨some (.base "libschema migrations table, tracking already locked"),
       heldState, []⟩ ∧
    UnlockMigrationsTable lockEnvOk freeState =
      ⟨some (.base "libschema migrations table, not locked"), freeState, []⟩ := by
  have h := lock_at_most_one_handle lockEnvOk heldState "tracking" "" "tracking" 1
  have h' := lock_at_most_one_handle lockEnvOk freeState "tracking" "" "tracking" 1
  exact ⟨h.1 rfl rfl, h'.2 rfl⟩

/-- C8: every release performed while the lock is held rolls the pinned
    transaction back and clears the held-lock state, regardless of whether
    the RELEASE_LOCK call succeeded. -/
theorem unlock_discards_session (env : LockEnv) (st : LockState) (t : Nat)
    (h : st.lockTx = some t) :
    (UnlockMigrationsTable env st).st.lockTx = none ∧
    (UnlockMigrationsTable env st).st.lockStr = st.lockStr ∧
    DBOp.rollback t ∈ (UnlockMigrationsTable env st).trace := by
  cases hr : env.releaseExec <;> simp [UnlockMigrationsTable, h, hr]

/-- C8 witness: the session is discarded even when the release call fails. -/
theorem unlock_discards_session_witness :
    (UnlockMigrationsTable lockEnvRelFail heldState).err =
      some (.wrap "Could not release explicit lock for schema migrations"
        (.base "relfail")) ∧
    (UnlockMigrationsTable lockEnvRelFail heldState).st.lockTx = none ∧
    DBOp.rollback 1 ∈ (UnlockMigrationsTable lockEnvRelFail heldState).trace := by
  have h := unlock_discards_session lockEnvRelFail heldState 1 rfl
  exact ⟨rfl, h.1, h.2.2⟩

theorem load_unknowns (known : List MKey) (rows : List TRow) (σ : StatusMap)
    (u : List MKey) :
    (rows.foldl (loadStep known) (σ, u)).2 =
      u ++ (rows.filter (fun r => decide (r.key ∉ known) && r.done)).map TRow.key := by
  induction rows generalizing σ u with
  | nil => simp
  | cons r rs ih =>
    simp only [List.foldl_cons]
    by_cases h : r.key ∈ known
    · rw [show loadStep known (σ, u) r =
          ((fun k => if k = r.key then some ⟨r.done⟩ else σ k), u) from by
        simp [loadStep, h]]
      rw [ih]
      simp [h]
    · cases hd : r.done with
      | true =>
        rw [show loadStep known (σ, u) r = (σ, u ++ [r.key]) from by
          simp [loadStep, h, hd]]
        rw [ih]
        simp [h, hd]
      | false =>
        rw [show loadStep known (σ, u) r = (σ, u) from by
          simp [loadStep, h, hd]]
        rw [ih]
        simp [h, hd]

theorem load_status_unknown_key (known : List MKey) (rows : List TRow)
    (σ : StatusMap) (u : List MKey) (k : MKey) (hk : k ∉ known) :
    (rows.foldl (loadStep known) (σ, u)).1 k = σ k := by
  induction rows generalizing σ u with
  | nil => rfl
  | cons r rs ih =>
    simp only [List.foldl_cons]
    by_cases h : r.key ∈ known
    · have hne : k ≠ r.key := by
        intro he
        exact hk (he ▸ h)
      rw [show loadStep known (σ, u) r =
          ((fun k' => if k' = r.key then some ⟨r.done⟩ else σ k'), u) from by
        simp [loadStep, h]]
      rw [ih _ u]
      simp [hne]
    · cases hd : r.done with
      | true =>
        rw [show loadStep known (σ, u) r = (σ, u ++ [r.key]) from by
          simp [loadStep, h, hd]]
        exact ih σ (u ++ [r.key])
      | false =>
        rw [show loadStep known (σ, u) r = (σ, u) from by
          simp [loadStep, h, hd]]
        exact ih σ u

theorem load_status_known (known : List MKey) (rows : List TRow)
    (σ : StatusMap) (u : List MKey) (k : MKey) (hk : k ∈ known) :
    (rows.foldl (loadStep known) (σ, u)).1 k =
      (rows.filter (fun r => decide (r.key = k))).foldl
        (fun _ r => some (⟨r.done⟩ : MigrationStatus)) (σ k) := by
  induction rows generalizing σ u with
  | nil => rfl
  | cons r rs ih =>
    simp only [List.foldl_cons]
    by_cases hrk : r.key = k
    · have h : r.key ∈ known := hrk ▸ hk
      rw [show loadStep known (σ, u) r =
          ((fun k' => if k' = r.key then some ⟨r.done⟩ else σ k'), u) from by
        simp [loadStep, h]]
      rw [ih _ u]
      rw [show (r :: rs).filter (fun r' => decide (r'.key = k)) =
          r :: rs.filter (fun r' => decide (r'.key = k)) from by simp [hrk]]
      simp only [List.foldl_cons]
      congr 1
      simp [hrk.symm]
    · have hne : k ≠ r.key := fun he => hrk he.symm
      have hfil : (r :: rs).filter (fun r' => decide (r'.key = k)) =
          rs.filter (fun r' => decide (r'.key = k)) := by simp [hrk]
      by_cases h : r.key ∈ known
      · rw [show loadStep known (σ, u) r =
            ((fun k' => if k' = r.key then some ⟨r.done⟩ else σ k'), u) from by
          simp [loadStep, h]]
        rw [ih _ u]
        rw [hfil]
        simp [hne]
      · cases hd : r.done with
        | true =>
          rw [show loadStep known (σ, u) r = (σ, u ++ [r.key]) from by
            simp [loadStep, h, hd]]
          rw [ih _ (u ++ [r.key]), hfil]
        | false =>
          rw [show loadStep known (σ, u) r = (σ, u) from by
            simp [loadStep, h, hd]]
          rw [ih _ u, hfil]

/-- C9: with a successful query, LoadStatus returns without error; the
    returned unknown-completed list consists exactly of the done rows whose
    key matches no known migration, in row order; and each known migration's
    in-memory status is the result of applying, in order, the recorded done
    flag of every row matching its key (so the last matching row wins, and a
    migration with no matching row keeps its prior status). -/
theorem loadStatus_rows_processing (known : List MKey) (σ : StatusMap)
    (rows : List TRow) :
    LoadStatus none known σ rows = .ok (loadResult known σ rows) ∧
    (loadResult known σ rows).2 =
      (rows.filter (fun r => decide (r.key ∉ known) && r.done)).map TRow.key ∧
    ∀ k, k ∈ known →
      (loadResult known σ rows).1 k =
        (rows.filter (fun r => decide (r.key = k))).foldl
          (fun _ r => some (⟨r.done⟩ : MigrationStatus)) (σ k) := by
  refine ⟨rfl, ?_, fun k hk => ?_⟩
  · rw [show loadResult known σ rows = rows.foldl (loadStep known) (σ, []) from rfl]
    rw [load_unknowns]
    simp
  · exact load_status_known known rows σ [] k hk

/-- C9 witness: a done row for a known migration updates its status, a done
    row for an unknown migration lands in the unknown-completed list, and no
    error is returned. -/
theorem loadStatus_rows_processing_witness :
    LoadStatus none [("lib", "m1")] (fun _ => none) demoRows =
      .ok (loadResult [("lib", "m1")] (fun _ => none) demoRows) ∧
    (loadResult [("lib", "m1")] (fun _ => none) demoRows).1 ("lib", "m1") =
      some ⟨true⟩ ∧
    (loadResult [("lib", "m1")] (fun _ => none) demoRows).2 = [("old", "gone")] := by
  have h := loadStatus_rows_processing [("lib", "m1")] (fun _ => none) demoRows
  refine ⟨h.1, ?_, ?_⟩
  · rw [h.2.2 ("lib", "m1") (by simp)]
    rfl
  · rw [h.2.1]
    rfl

/-- C10: a tracking row that matches no known migration and is not done is
    silently ignored: its key is absent from the returned unknown-completed
    list (given the rows have pairwise-distinct keys, as the primary key
    guarantees), the in-memory status at its key is untouched, and LoadStatus
    still returns without error. -/
theorem loadStatus_ignores_unknown_not_done (known : List MKey) (σ : StatusMap)
    (rows : List TRow) (r : TRow)
    (hmem : r ∈ rows) (hk : r.key ∉ known) (hd : r.done = false)
    (hdist : rows.Pairwise (fun a b => a.key ≠ b.key)) :
    r.key ∉ (loadResult known σ rows).2 ∧
    (loadResult known σ rows).1 r.key = σ r.key ∧
    LoadStatus none known σ rows = .ok (loadResult known σ rows) := by
  refine ⟨?_, load_status_unknown_key known rows σ [] r.key hk, rfl⟩
  rw [show loadResult known σ rows = rows.foldl (loadStep known) (σ, []) from rfl,
    load_unknowns]
  simp only [List.nil_append]
  intro hin
  obtain ⟨r', hr'⟩ := List.mem_map.mp hin
  have hr'mem : r' ∈ rows := (List.mem_filter.mp hr'.1).1
  have hr'cond := (List.mem_filter.mp hr'.1).2
  have hkey : r'.key = r.key := hr'.2
  by_cases heq : r' = r
  · rw [heq, hd] at hr'cond
    simp at hr'cond
  · have : r'.key ≠ r.key := hdist.forall (fun _ _ h => h.symm) hr'mem hmem heq
    exact this hkey

/-- C10 witness: the not-done unknown row ("x","y") is dropped: it is not in
    the unknown-completed list and no status is recorded for it. -/
theorem loadStatus_ignores_unknown_not_done_witness :
    ("x", "y") ∉ (loadResult [("lib", "m1")] (fun _ => none) demoRows).2 ∧
    (loadResult [("lib", "m1")] (fun _ => none) demoRows).1 ("x", "y") = none := by
  have h := loadStatus_ignores_unknown_not_done [("lib", "m1")] (fun _ => none)
    demoRows ⟨"x", "y", false⟩ (by decide) (by decide) rfl (by decide)
  exact ⟨h.1, h.2.1⟩

end Lsmysql
